import Mathlib

/-!
Shallow embedding of `src/Frontend/webpage/src/App.js` (Movie_Recommender
frontend).  The component's state hooks become the fields of `AppState`;
each event handler becomes a pure function from the pre-state (and the
network outcome of the single request it may issue) to a record holding
the request body that was sent (if any), the state while the request was
outstanding, and the final state.  Rendering expressions that the claims
mention (`users.slice(0, 100)`, `movies.slice(0, 500)`, the enumeration
of recommendation cards, `disabled={loading}`) are embedded as functions
on the state.
-/

/-- The two tabs of the UI (`activeTab` is `'predict'` or `'recommend'`). -/
inductive Tab : Type where
  | predict : Tab
  | recommend : Tab
deriving DecidableEq, Repr

/-- A movie reference list entry from `GET /movies` (`{movieId, title, genres}`). -/
structure MovieRef : Type where
  movieId : Int
  title : String
  genres : String
deriving DecidableEq, Repr

/-- The body of a successful `POST /predict` response, stored whole into
the `prediction` state hook (`setPrediction(data)`). -/
structure PredictionResult : Type where
  userId : Int
  movieTitle : String
  genres : String
  predictedRating : Rat
deriving DecidableEq, Repr

/-- One element of the `recommendations` array of a successful
`POST /recommend` response. -/
structure RecommendationItem : Type where
  movieId : Int
  title : String
  genres : String
  predictedRating : Rat
deriving DecidableEq, Repr

/-- The component state: one field per `useState` hook of `App`. -/
structure AppState : Type where
  activeTab : Tab
  users : List Int
  movies : List MovieRef
  selectedUser : String
  selectedMovie : String
  prediction : Option PredictionResult
  recommendations : List RecommendationItem
  topN : Int
  loading : Bool
  error : Option String
deriving DecidableEq, Repr

/-- The initial state (`useState` initial values). -/
def initialState : AppState :=
  { activeTab := Tab.predict
    users := []
    movies := []
    selectedUser := ""
    selectedMovie := ""
    prediction := none
    recommendations := []
    topN := 10
    loading := false
    error := none }

/-- JavaScript `parseInt` on a string: skip leading spaces, optional sign,
then leading decimal digits; `none` models `NaN` (no digits). -/
def parseIntJS (s : String) : Option Int :=
  let cs := s.toList.dropWhile (fun c => c = ' ')
  let signRest : Int × List Char :=
    match cs with
    | '-' :: r => (-1, r)
    | '+' :: r => (1, r)
    | r => (1, r)
  let digits := signRest.2.takeWhile Char.isDigit
  if digits.isEmpty then none
  else some (signRest.1 * (digits.foldl (fun acc c => acc * 10 + (c.toNat - 48)) 0 : Nat))

/-- JavaScript string `||` with a string default: an absent (`none`) or
empty string falls through to the default, any other string is kept. -/
def jsOrString (o : Option String) (d : String) : String :=
  match o with
  | some s => if s = "" then d else s
  | none => d

/-- Body of the `POST /predict` request
(`{userId: parseInt(selectedUser), movieId: parseInt(selectedMovie)}`). -/
structure PredictBody : Type where
  userId : Option Int
  movieId : Option Int
deriving DecidableEq, Repr

/-- Body of the `POST /recommend` request
(`{userId: parseInt(selectedUser), topN: topN}`). -/
structure RecommendBody : Type where
  userId : Option Int
  topN : Int
deriving DecidableEq, Repr

/-- Outcome of the single `POST /predict` request: `ok` response with
parsed JSON body, non-`ok` response whose parsed body may carry an
`error` string, or a thrown error (network failure or JSON parse
failure), carrying `err.message`. -/
inductive PredictOutcome : Type where
  | ok : PredictionResult → PredictOutcome
  | httpError : Option String → PredictOutcome
  | networkFailure : String → PredictOutcome
deriving DecidableEq, Repr

/-- Outcome of the single `POST /recommend` request; on `ok` the parsed
body's `recommendations` field may be absent (`data.recommendations || []`). -/
inductive RecommendOutcome : Type where
  | ok : Option (List RecommendationItem) → RecommendOutcome
  | httpError : Option String → RecommendOutcome
  | networkFailure : String → RecommendOutcome
deriving DecidableEq, Repr

/-- The observable run of one handler invocation: the request body (if a
request was issued), the state while the request was outstanding (if a
request was issued), and the final state after the handler returns. -/
structure PredictRun : Type where
  requestBody : Option PredictBody
  pending : Option AppState
  final : AppState
deriving DecidableEq, Repr

/-- Same shape for a `handleRecommend` invocation. -/
structure RecommendRun : Type where
  requestBody : Option RecommendBody
  pending : Option AppState
  final : AppState
deriving DecidableEq, Repr

/-- `handlePredict` from App.js lines 43-77: validation guard, then
`setLoading(true); setError(null); setPrediction(null)`, the request,
and the three-way outcome handling with `setLoading(false)` in `finally`. -/
def handlePredict (s : AppState) (net : PredictOutcome) : PredictRun :=
  if s.selectedUser = "" ∨ s.selectedMovie = "" then
    { requestBody := none
      pending := none
      final := { s with error := some "Please select both user and movie" } }
  else
    let s1 : AppState := { s with loading := true, error := none, prediction := none }
    let body : PredictBody :=
      { userId := parseIntJS s.selectedUser, movieId := parseIntJS s.selectedMovie }
    let fin : AppState :=
      match net with
      | PredictOutcome.ok d => { s1 with prediction := some d, loading := false }
      | PredictOutcome.httpError e =>
          { s1 with error := some (jsOrString e "Prediction failed"), loading := false }
      | PredictOutcome.networkFailure m =>
          { s1 with error := some ("Error connecting to server: " ++ m), loading := false }
    { requestBody := some body, pending := some s1, final := fin }

/-- `handleRecommend` from App.js lines 79-113: validation guard, then
`setLoading(true); setError(null); setRecommendations([])`, the request
(whose body carries `topN: topN` unchanged), and the three-way outcome
handling with `setLoading(false)` in `finally`. -/
def handleRecommend (s : AppState) (net : RecommendOutcome) : RecommendRun :=
  if s.selectedUser = "" then
    { requestBody := none
      pending := none
      final := { s with error := some "Please select a user" } }
  else
    let s1 : AppState := { s with loading := true, error := none, recommendations := [] }
    let body : RecommendBody :=
      { userId := parseIntJS s.selectedUser, topN := s.topN }
    let fin : AppState :=
      match net with
      | RecommendOutcome.ok d => { s1 with recommendations := d.getD [], loading := false }
      | RecommendOutcome.httpError e =>
          { s1 with error := some (jsOrString e "Recommendation failed"), loading := false }
      | RecommendOutcome.networkFailure m =>
          { s1 with error := some ("Error connecting to server: " ++ m), loading := false }
    { requestBody := some body, pending := some s1, final := fin }

/-- Outcome of one startup reference-data fetch: a parsed response whose
expected field may be absent, or a thrown error caught by the handler's
`try/catch` (which only logs). -/
inductive FetchOutcome (α : Type) : Type where
  | success : Option α → FetchOutcome α
  | failure : FetchOutcome α
deriving DecidableEq, Repr

/-- `fetchUsers` (App.js lines 23-31): on success `setUsers(data.userIds || [])`,
on a thrown error only `console.error` (state untouched). -/
def fetchUsers (s : AppState) (o : FetchOutcome (List Int)) : AppState :=
  match o with
  | FetchOutcome.success d => { s with users := d.getD [] }
  | FetchOutcome.failure => s

/-- `fetchMovies` (App.js lines 33-41): on success `setMovies(data.movies || [])`,
on a thrown error only `console.error` (state untouched). -/
def fetchMovies (s : AppState) (o : FetchOutcome (List MovieRef)) : AppState :=
  match o with
  | FetchOutcome.success d => { s with movies := d.getD [] }
  | FetchOutcome.failure => s

/-- `onClick={() => setActiveTab(t)}` on the tab buttons. -/
def setActiveTab (s : AppState) (t : Tab) : AppState :=
  { s with activeTab := t }

/-- `onChange={(e) => setSelectedUser(e.target.value)}` on the user select. -/
def setSelectedUser (s : AppState) (v : String) : AppState :=
  { s with selectedUser := v }

/-- `onChange={(e) => setSelectedMovie(e.target.value)}` on the movie select. -/
def setSelectedMovie (s : AppState) (v : String) : AppState :=
  { s with selectedMovie := v }

/-- `onChange={(e) => setTopN(parseInt(e.target.value))}` on the topN
number input; the `min="1"`/`max="50"` attributes do not gate this handler,
so any parsed integer is stored. -/
def setTopN (s : AppState) (n : Int) : AppState :=
  { s with topN := n }

/-- The user-ID options rendered in both selects: `users.slice(0, 100)`. -/
def renderedUserOptions (users : List Int) : List Int :=
  users.take 100

/-- The movie options rendered in the predict select: `movies.slice(0, 500)`. -/
def renderedMovieOptions (movies : List MovieRef) : List MovieRef :=
  movies.take 500

/-- The recommendation cards as rendered: `recommendations.map((rec, index) =>
...)` displaying rank `#{index + 1}`, so card `index` shows rank `index + 1`
paired with that element. -/
def renderRecommendations (recs : List RecommendationItem) :
    List (Nat × RecommendationItem) :=
  recs.enum.map (fun p => (p.1 + 1, p.2))

/-- `disabled={loading}` on the Predict Rating button. -/
def predictButtonDisabled (s : AppState) : Bool :=
  s.loading

/-- `disabled={loading}` on the Get Recommendations button. -/
def recommendButtonDisabled (s : AppState) : Bool :=
  s.loading

/-! ## Theorems -/

/-- C2: if `selectedUser` or `selectedMovie` is empty, invoking predict
issues no network request, sets `error` to the validation message, and
changes no other state field. -/
theorem predict_validation_no_request (s : AppState) (net : PredictOutcome)
    (h : s.selectedUser = "" ∨ s.selectedMovie = "") :
    (handlePredict s net).requestBody = none ∧
    (handlePredict s net).pending = none ∧
    (handlePredict s net).final =
      { s with error := some "Please select both user and movie" } := by
  unfold handlePredict
  rw [if_pos h]
  exact ⟨rfl, rfl, rfl⟩

/-- Witness for C2 at a concrete state (empty `selectedUser`). -/
theorem predict_validation_no_request_witness :
    (handlePredict initialState (PredictOutcome.networkFailure "down")).requestBody = none ∧
    (handlePredict initialState (PredictOutcome.networkFailure "down")).pending = none ∧
    (handlePredict initialState (PredictOutcome.networkFailure "down")).final =
      { initialState with error := some "Please select both user and movie" } :=
  predict_validation_no_request initialState (PredictOutcome.networkFailure "down")
    (Or.inl rfl)


/-- A concrete sample of an old prediction result, for concrete runs. -/
def oldPrediction : PredictionResult :=
  { userId := 9
    movieTitle := "Old"
    genres := "Drama"
    predictedRating := 1 }

/-- A concrete sample of a fresh prediction result, for concrete runs. -/
def newPrediction : PredictionResult :=
  { userId := 1
    movieTitle := "Heat"
    genres := "Action"
    predictedRating := 4 }

/-- A concrete state with both selections made and stale results present. -/
def staleState : AppState :=
  { initialState with
    selectedUser := "1"
    selectedMovie := "5"
    error := some "old"
    prediction := some oldPrediction }

/-- C3: a predict invocation whose request completes `ok` ends with the
response data stored as the prediction and a null error; the only
intermediate state (while the request was outstanding) already has both
the previous prediction and the previous error cleared, so no state of
the run pairs a stale prediction with the new outcome. -/
theorem predict_success_replaces_state (s : AppState) (d : PredictionResult)
    (hu : s.selectedUser ≠ "") (hm : s.selectedMovie ≠ "") :
    (handlePredict s (PredictOutcome.ok d)).final.prediction = some d ∧
    (handlePredict s (PredictOutcome.ok d)).final.error = none ∧
    ∃ p, (handlePredict s (PredictOutcome.ok d)).pending = some p ∧
      p.prediction = none ∧ p.error = none := by
  unfold handlePredict
  rw [if_neg (by push_neg; exact ⟨hu, hm⟩)]
  exact ⟨rfl, rfl, _, rfl, rfl, rfl⟩

/-- Witness for C3 at a concrete valid state and response. -/
theorem predict_success_replaces_state_witness :
    (handlePredict staleState (PredictOutcome.ok newPrediction)).final.prediction =
      some newPrediction ∧
    (handlePredict staleState (PredictOutcome.ok newPrediction)).final.error = none ∧
    ∃ p, (handlePredict staleState (PredictOutcome.ok newPrediction)).pending = some p ∧
      p.prediction = none ∧ p.error = none :=
  predict_success_replaces_state staleState newPrediction (by decide) (by decide)

/-- C4: a predict invocation that issues a request and fails ends with
`prediction` null and `error` a human-readable string: the response
body's error message verbatim when the server reports one, the
generic-prefixed message on a transport error, and some message in every
non-`ok` case. -/
theorem predict_failure_sets_error (s : AppState)
    (hu : s.selectedUser ≠ "") (hm : s.selectedMovie ≠ "") :
    (∀ e : String, e ≠ "" →
      (handlePredict s (PredictOutcome.httpError (some e))).final.prediction = none ∧
      (handlePredict s (PredictOutcome.httpError (some e))).final.error = some e) ∧
    (∀ m : String,
      (handlePredict s (PredictOutcome.networkFailure m)).final.prediction = none ∧
      (handlePredict s (PredictOutcome.networkFailure m)).final.error =
        some ("Error connecting to server: " ++ m)) ∧
    (∀ b : Option String,
      (handlePredict s (PredictOutcome.httpError b)).final.prediction = none ∧
      ∃ msg, (handlePredict s (PredictOutcome.httpError b)).final.error = some msg) := by
  have hcond : ¬ (s.selectedUser = "" ∨ s.selectedMovie = "") := by
    push_neg; exact ⟨hu, hm⟩
  refine ⟨fun e he => ?_, fun m => ?_, fun b => ?_⟩
  · unfold handlePredict
    rw [if_neg hcond]
    exact ⟨rfl, by simp [jsOrString, he]⟩
  · unfold handlePredict
    rw [if_neg hcond]
    exact ⟨rfl, rfl⟩
  · unfold handlePredict
    rw [if_neg hcond]
    exact ⟨rfl, jsOrString b "Prediction failed", rfl⟩

/-- Witness for C4 at a concrete valid state. -/
theorem predict_failure_sets_error_witness :
    (handlePredict staleState
        (PredictOutcome.httpError (some "user not found"))).final.prediction = none ∧
    (handlePredict staleState
        (PredictOutcome.httpError (some "user not found"))).final.error =
      some "user not found" :=
  (predict_failure_sets_error staleState (by decide) (by decide)).1
    "user not found" (by decide)

/-- Helper: the shape of a `handlePredict` run when validation passes. -/
theorem handlePredict_valid (s : AppState) (net : PredictOutcome)
    (h : ¬ (s.selectedUser = "" ∨ s.selectedMovie = "")) :
    handlePredict s net =
      { requestBody :=
          some { userId := parseIntJS s.selectedUser, movieId := parseIntJS s.selectedMovie }
        pending := some { s with loading := true, error := none, prediction := none }
        final :=
          match net with
          | PredictOutcome.ok d =>
              { s with loading := false, error := none, prediction := some d }
          | PredictOutcome.httpError e =>
              { s with loading := false, prediction := none
                       error := some (jsOrString e "Prediction failed") }
          | PredictOutcome.networkFailure m =>
              { s with loading := false, prediction := none
                       error := some ("Error connecting to server: " ++ m) } } := by
  unfold handlePredict
  rw [if_neg h]

/-- Helper: the shape of a `handlePredict` run when validation fails. -/
theorem handlePredict_invalid (s : AppState) (net : PredictOutcome)
    (h : s.selectedUser = "" ∨ s.selectedMovie = "") :
    handlePredict s net =
      { requestBody := none
        pending := none
        final := { s with error := some "Please select both user and movie" } } := by
  unfold handlePredict
  rw [if_pos h]

/-- Helper: the shape of a `handleRecommend` run when validation passes. -/
theorem handleRecommend_valid (s : AppState) (net : RecommendOutcome)
    (h : ¬ s.selectedUser = "") :
    handleRecommend s net =
      { requestBody := some { userId := parseIntJS s.selectedUser, topN := s.topN }
        pending := some { s with loading := true, error := none, recommendations := [] }
        final :=
          match net with
          | RecommendOutcome.ok d =>
              { s with loading := false, error := none, recommendations := d.getD [] }
          | RecommendOutcome.httpError e =>
              { s with loading := false, recommendations := []
                       error := some (jsOrString e "Recommendation failed") }
          | RecommendOutcome.networkFailure m =>
              { s with loading := false, recommendations := []
                       error := some ("Error connecting to server: " ++ m) } } := by
  unfold handleRecommend
  rw [if_neg h]

/-- Helper: the shape of a `handleRecommend` run when validation fails. -/
theorem handleRecommend_invalid (s : AppState) (net : RecommendOutcome)
    (h : s.selectedUser = "") :
    handleRecommend s net =
      { requestBody := none
        pending := none
        final := { s with error := some "Please select a user" } } := by
  unfold handleRecommend
  rw [if_pos h]

/-- A concrete recommendation item, for concrete runs. -/
def recA : RecommendationItem :=
  { movieId := 5
    title := "Heat"
    genres := "Action"
    predictedRating := 4 }

/-- A second concrete recommendation item, for concrete runs. -/
def recB : RecommendationItem :=
  { movieId := 6
    title := "Up"
    genres := "Animation"
    predictedRating := 3 }

/-- C5: the rendered recommendation cards have one card per stored item,
and a card carries rank `k` with item `item` exactly when `item` sits at
array index `k - 1` of the stored list (so rank = array index + 1 and
backend order is preserved). -/
theorem render_preserves_order (recs : List RecommendationItem) :
    (renderRecommendations recs).length = recs.length ∧
    ∀ k item, (k, item) ∈ renderRecommendations recs ↔
      1 ≤ k ∧ recs[k - 1]? = some item := by
  constructor
  · simp [renderRecommendations]
  · intro k item
    unfold renderRecommendations
    rw [List.mem_map]
    constructor
    · rintro ⟨⟨i, a⟩, hmem, heq⟩
      have hk : i + 1 = k := congrArg Prod.fst heq
      have ha : a = item := congrArg Prod.snd heq
      subst ha
      rw [List.mk_mem_enum_iff_getElem?] at hmem
      refine ⟨by omega, ?_⟩
      have : k - 1 = i := by omega
      rw [this]
      exact hmem
    · rintro ⟨hk, hget⟩
      refine ⟨(k - 1, item), ?_, ?_⟩
      · rw [List.mk_mem_enum_iff_getElem?]
        exact hget
      · have : k - 1 + 1 = k := by omega
        simp [this]

/-- Witness for C5 at a concrete two-element list and rank 2. -/
theorem render_preserves_order_witness :
    (2, recB) ∈ renderRecommendations [recA, recB] ↔
      1 ≤ 2 ∧ [recA, recB][2 - 1]? = some recB :=
  (render_preserves_order [recA, recB]).2 2 recB

/-- C10: the select controls render only `users.slice(0, 100)` and
`movies.slice(0, 500)`: at most 100 user options and 500 movie options,
and an option is offered exactly when it occurs at an index below the
cutoff in the fetched list, so no later entry is selectable. -/
theorem rendered_options_truncate (users : List Int) (movies : List MovieRef) :
    (renderedUserOptions users).length ≤ 100 ∧
    (∀ u, u ∈ renderedUserOptions users ↔ ∃ i, i < 100 ∧ users[i]? = some u) ∧
    (renderedMovieOptions movies).length ≤ 500 ∧
    (∀ m, m ∈ renderedMovieOptions movies ↔ ∃ i, i < 500 ∧ movies[i]? = some m) := by
  refine ⟨List.length_take_le 100 users, fun u => ?_, List.length_take_le 500 movies,
    fun m => ?_⟩
  · unfold renderedUserOptions
    rw [List.mem_take_iff_getElem]
    constructor
    · rintro ⟨i, hm, rfl⟩
      have h1 : i < 100 := lt_of_lt_of_le hm inf_le_left
      have h2 : i < users.length := lt_of_lt_of_le hm inf_le_right
      exact ⟨i, h1, List.getElem?_eq_getElem h2⟩
    · rintro ⟨i, h1, hget⟩
      have h2 : i < users.length := (List.getElem?_eq_some.mp hget).1
      refine ⟨i, lt_inf_iff.mpr ⟨h1, h2⟩, ?_⟩
      have := List.getElem?_eq_getElem h2
      rw [this] at hget
      exact Option.some.inj hget
  · unfold renderedMovieOptions
    rw [List.mem_take_iff_getElem]
    constructor
    · rintro ⟨i, hm, rfl⟩
      have h1 : i < 500 := lt_of_lt_of_le hm inf_le_left
      have h2 : i < movies.length := lt_of_lt_of_le hm inf_le_right
      exact ⟨i, h1, List.getElem?_eq_getElem h2⟩
    · rintro ⟨i, h1, hget⟩
      have h2 : i < movies.length := (List.getElem?_eq_some.mp hget).1
      refine ⟨i, lt_inf_iff.mpr ⟨h1, h2⟩, ?_⟩
      have := List.getElem?_eq_getElem h2
      rw [this] at hget
      exact Option.some.inj hget

/-- Witness for C10 at a concrete singleton user list and movie list. -/
theorem rendered_options_truncate_witness :
    (7 : Int) ∈ renderedUserOptions [7] ↔ ∃ i, i < 100 ∧ [(7 : Int)][i]? = some 7 :=
  (rendered_options_truncate [7] []).2.1 7

/-- C8: a failed reference-data fetch changes nothing at all (the
`catch` only logs), so from the initial state the collection stays an
empty list and no error is surfaced; and regardless of outcome,
`fetchUsers` never touches `movies` or `error` and `fetchMovies` never
touches `users` or `error` (partial degradation, one collection only). -/
theorem fetch_failure_partial_degradation (s : AppState)
    (o : FetchOutcome (List Int)) (o2 : FetchOutcome (List MovieRef)) :
    fetchUsers s FetchOutcome.failure = s ∧
    fetchMovies s FetchOutcome.failure = s ∧
    (fetchUsers s o).movies = s.movies ∧
    (fetchUsers s o).error = s.error ∧
    (fetchMovies s o2).users = s.users ∧
    (fetchMovies s o2).error = s.error ∧
    (fetchMovies (fetchUsers initialState FetchOutcome.failure)
      FetchOutcome.failure).users = [] ∧
    (fetchMovies (fetchUsers initialState FetchOutcome.failure)
      FetchOutcome.failure).movies = [] ∧
    (fetchMovies (fetchUsers initialState FetchOutcome.failure)
      FetchOutcome.failure).error = none := by
  cases o <;> cases o2 <;>
    exact ⟨rfl, rfl, rfl, rfl, rfl, rfl, rfl, rfl, rfl⟩

/-- C9: whenever a handler issues a request, the state while the request
is outstanding has `loading = true` (and the triggering button is
disabled, since `disabled={loading}`), and the final state after any of
the three outcomes has `loading = false`; when validation rejects the
action and no request is issued, `loading` is untouched. -/
theorem loading_flag_lifecycle (s t : AppState) (net : PredictOutcome)
    (net2 : RecommendOutcome) :
    (∀ p, (handlePredict s net).pending = some p →
      p.loading = true ∧ predictButtonDisabled p = true ∧
      (handlePredict s net).final.loading = false) ∧
    ((handlePredict s net).pending = none →
      (handlePredict s net).final.loading = s.loading) ∧
    (∀ p, (handleRecommend s net2).pending = some p →
      p.loading = true ∧ recommendButtonDisabled p = true ∧
      (handleRecommend s net2).final.loading = false) ∧
    ((handleRecommend s net2).pending = none →
      (handleRecommend s net2).final.loading = s.loading) ∧
    predictButtonDisabled t = t.loading ∧
    recommendButtonDisabled t = t.loading := by
  refine ⟨?_, ?_, ?_, ?_, rfl, rfl⟩
  · intro p hp
    by_cases h : s.selectedUser = "" ∨ s.selectedMovie = ""
    · rw [handlePredict_invalid s net h] at hp
      cases hp
    · rw [handlePredict_valid s net h] at hp ⊢
      have hps : p = { s with loading := true, error := none, prediction := none } :=
        (Option.some.inj hp).symm
      subst hps
      refine ⟨rfl, rfl, ?_⟩
      cases net <;> rfl
  · intro hp
    by_cases h : s.selectedUser = "" ∨ s.selectedMovie = ""
    · rw [handlePredict_invalid s net h]
    · rw [handlePredict_valid s net h] at hp
      cases hp
  · intro p hp
    by_cases h : s.selectedUser = ""
    · rw [handleRecommend_invalid s net2 h] at hp
      cases hp
    · rw [handleRecommend_valid s net2 h] at hp ⊢
      have hps : p = { s with loading := true, error := none, recommendations := [] } :=
        (Option.some.inj hp).symm
      subst hps
      refine ⟨rfl, rfl, ?_⟩
      cases net2 <;> rfl
  · intro hp
    by_cases h : s.selectedUser = ""
    · rw [handleRecommend_invalid s net2 h]
    · rw [handleRecommend_valid s net2 h] at hp
      cases hp

/-- Witness for C9 at a concrete valid state and outcomes. -/
theorem loading_flag_lifecycle_witness :
    { staleState with loading := true, error := none, prediction := none }.loading
        = true ∧
    (handlePredict staleState (PredictOutcome.ok newPrediction)).final.loading = false :=
  let h := (loading_flag_lifecycle staleState initialState
    (PredictOutcome.ok newPrediction) (RecommendOutcome.networkFailure "down")).1
    { staleState with loading := true, error := none, prediction := none }
    (by rw [handlePredict_valid staleState (PredictOutcome.ok newPrediction) (by decide)])
  ⟨h.1, h.2.2⟩

/-- C1 counterexample: with `selectedUser = "1"` and the `topN` state
field holding 100 (the number input's `min`/`max` attributes do not gate
the `onChange` handler), `handleRecommend` issues a request whose body
carries `topN = 100`, outside [1,50]: the handler neither validates nor
clamps `topN`. -/
theorem recommend_topN_not_clamped_cex :
    ¬ (∀ b, (handleRecommend { initialState with selectedUser := "1", topN := 100 }
          (RecommendOutcome.ok (some []))).requestBody = some b →
        1 ≤ b.topN ∧ b.topN ≤ 50) := by
  intro hall
  have h0 : (handleRecommend { initialState with selectedUser := "1", topN := 100 }
      (RecommendOutcome.ok (some []))).requestBody =
        some { userId := parseIntJS "1", topN := 100 } := by
    rw [handleRecommend_valid _ _ (by decide)]
  have h := hall { userId := parseIntJS "1", topN := 100 } h0
  have h2 : (100 : Int) ≤ 50 := h.2
  omega

/-- C1 amended: whenever `handleRecommend` issues a request, the body's
`topN` is the `topN` state field unchanged (no validation, no clamping);
the only validation performed is that `selectedUser` is non-empty. -/
theorem recommend_topN_sent_verbatim (s : AppState) (net : RecommendOutcome)
    (h : ¬ s.selectedUser = "") :
    (handleRecommend s net).requestBody =
      some { userId := parseIntJS s.selectedUser, topN := s.topN } := by
  rw [handleRecommend_valid s net h]

/-- Witness for the amended C1 at a concrete state with `topN = 100`. -/
theorem recommend_topN_sent_verbatim_witness :
    (handleRecommend { initialState with selectedUser := "1", topN := 100 }
        (RecommendOutcome.ok (some []))).requestBody =
      some { userId := parseIntJS "1", topN := 100 } :=
  recommend_topN_sent_verbatim
    { initialState with selectedUser := "1", topN := 100 }
    (RecommendOutcome.ok (some [])) (by decide)

/-- A concrete state with valid selections and a stale recommendation. -/
def staleRecsState : AppState :=
  { initialState with
    selectedUser := "1"
    selectedMovie := "5"
    recommendations := [recA] }

/-- C6 counterexample: a predict invocation resets `prediction` and
`error` but not `recommendations`: with a stale recommendation stored,
both the pending and the final state of a successful predict run still
hold it, so a predict invocation does carry a result of a prior
recommend request over. -/
theorem predict_keeps_stale_recommendations_cex :
    ((handlePredict staleRecsState (PredictOutcome.ok newPrediction)).pending.map
      AppState.recommendations) = some [recA] ∧
    (handlePredict staleRecsState
      (PredictOutcome.ok newPrediction)).final.recommendations = [recA] ∧
    [recA] ≠ ([] : List RecommendationItem) := by
  refine ⟨?_, ?_, by decide⟩ <;> rw [handlePredict_valid _ _ (by decide)] <;> rfl

/-- C6 amended: each invocation that issues a request resets only its
own result fields before the request goes out (predict: `prediction` and
`error`; recommend: `recommendations` and `error`); the other
operation's result field is carried over unchanged through the whole
run. -/
theorem request_resets_own_fields (s : AppState) (net : PredictOutcome)
    (net2 : RecommendOutcome) :
    (∀ p, (handlePredict s net).pending = some p →
      p.prediction = none ∧ p.error = none ∧
      p.recommendations = s.recommendations) ∧
    (handlePredict s net).final.recommendations = s.recommendations ∧
    (∀ p, (handleRecommend s net2).pending = some p →
      p.recommendations = [] ∧ p.error = none ∧ p.prediction = s.prediction) ∧
    (handleRecommend s net2).final.prediction = s.prediction := by
  refine ⟨?_, ?_, ?_, ?_⟩
  · intro p hp
    by_cases h : s.selectedUser = "" ∨ s.selectedMovie = ""
    · rw [handlePredict_invalid s net h] at hp
      cases hp
    · rw [handlePredict_valid s net h] at hp
      have hps := (Option.some.inj hp).symm
      subst hps
      exact ⟨rfl, rfl, rfl⟩
  · by_cases h : s.selectedUser = "" ∨ s.selectedMovie = ""
    · rw [handlePredict_invalid s net h]
    · rw [handlePredict_valid s net h]
      cases net <;> rfl
  · intro p hp
    by_cases h : s.selectedUser = ""
    · rw [handleRecommend_invalid s net2 h] at hp
      cases hp
    · rw [handleRecommend_valid s net2 h] at hp
      have hps := (Option.some.inj hp).symm
      subst hps
      exact ⟨rfl, rfl, rfl⟩
  · by_cases h : s.selectedUser = ""
    · rw [handleRecommend_invalid s net2 h]
    · rw [handleRecommend_valid s net2 h]
      cases net2 <;> rfl

/-- Witness for the amended C6 at a concrete state: a successful predict
run from `staleRecsState` carries the stale recommendation through. -/
theorem request_resets_own_fields_witness :
    (handlePredict staleRecsState
      (PredictOutcome.ok newPrediction)).final.recommendations =
        staleRecsState.recommendations :=
  (request_resets_own_fields staleRecsState (PredictOutcome.ok newPrediction)
    (RecommendOutcome.networkFailure "down")).2.1

/-- A concrete state carrying a prior error. -/
def errorState : AppState :=
  { initialState with error := some "user not found" }

/-- C7 counterexample: not every user action clears a prior error:
switching tabs, changing a selection, or editing `topN` leaves the
previous error string stored (only the predict and recommend handlers
touch `error`). -/
theorem user_action_keeps_error_cex :
    (setActiveTab errorState Tab.recommend).error = some "user not found" ∧
    (setSelectedUser errorState "2").error = some "user not found" ∧
    (setSelectedMovie errorState "9").error = some "user not found" ∧
    (setTopN errorState 5).error = some "user not found" ∧
    some "user not found" ≠ (none : Option String) := by
  exact ⟨rfl, rfl, rfl, rfl, by decide⟩

/-- C7 amended: a predict or recommend invocation always overwrites the
prior error — with `null` before the request goes out when validation
passes, or with the fixed validation message when it fails — while the
other user actions (tab switch, selection changes, `topN` edits) leave
the `error` field unchanged. -/
theorem invocation_overwrites_error (s : AppState) (net : PredictOutcome)
    (net2 : RecommendOutcome) (t : Tab) (u m : String) (n : Int) :
    (∀ p, (handlePredict s net).pending = some p → p.error = none) ∧
    ((handlePredict s net).pending = none →
      (handlePredict s net).final.error = some "Please select both user and movie") ∧
    (∀ p, (handleRecommend s net2).pending = some p → p.error = none) ∧
    ((handleRecommend s net2).pending = none →
      (handleRecommend s net2).final.error = some "Please select a user") ∧
    (setActiveTab s t).error = s.error ∧
    (setSelectedUser s u).error = s.error ∧
    (setSelectedMovie s m).error = s.error ∧
    (setTopN s n).error = s.error := by
  refine ⟨?_, ?_, ?_, ?_, rfl, rfl, rfl, rfl⟩
  · intro p hp
    by_cases h : s.selectedUser = "" ∨ s.selectedMovie = ""
    · rw [handlePredict_invalid s net h] at hp
      cases hp
    · rw [handlePredict_valid s net h] at hp
      have hps := (Option.some.inj hp).symm
      subst hps
      rfl
  · intro hp
    by_cases h : s.selectedUser = "" ∨ s.selectedMovie = ""
    · rw [handlePredict_invalid s net h]
    · rw [handlePredict_valid s net h] at hp
      cases hp
  · intro p hp
    by_cases h : s.selectedUser = ""
    · rw [handleRecommend_invalid s net2 h] at hp
      cases hp
    · rw [handleRecommend_valid s net2 h] at hp
      have hps := (Option.some.inj hp).symm
      subst hps
      rfl
  · intro hp
    by_cases h : s.selectedUser = ""
    · rw [handleRecommend_invalid s net2 h]
    · rw [handleRecommend_valid s net2 h] at hp
      cases hp

/-- Witness for the amended C7: a validation-failing predict invocation
from the initial state (with a prior error present) overwrites the error
with the validation message. -/
theorem invocation_overwrites_error_witness :
    (handlePredict errorState (PredictOutcome.networkFailure "down")).final.error =
      some "Please select both user and movie" :=
  (invocation_overwrites_error errorState (PredictOutcome.networkFailure "down")
      (RecommendOutcome.networkFailure "down") Tab.predict "" "" 0).2.1
    (by rw [handlePredict_invalid errorState _ (Or.inl rfl)])
